import Mathlib

/-!
Verification of the wallet-client command/request model.

This file is a shallow embedding, in Lean 4, of the Rust sources of the
wallet client library (src/commands.rs, src/request.rs, src/response.rs,
src/lib.rs). JSON documents are modelled by an inductive `Json` tree;
the serde-derived serializers and deserializers of each Rust type are
translated into explicit `toJson` and `fromJson` functions following the
semantics of the derive attributes that appear in the source
(rename_all = camelCase where present, per-variant rename tags on the
wire enums, externally tagged representation for the Command enum, and
Option fields that serialize to null and accept an absent key).
Machine integers (u64, i64, i32) are modelled as Nat and Int; randomness
and network I/O are passed in explicitly.
-/

namespace Vega

/-- A JSON document tree. Numbers are modelled as integers, which covers
every numeric field of this protocol (u64, i64 and i32 fields). -/
inductive Json where
  | null : Json
  | bool (b : Bool) : Json
  | num (n : Int) : Json
  | str (s : String) : Json
  | arr (xs : List Json) : Json
  | obj (fields : List (String × Json)) : Json

/-- Deserialization errors, mirroring the distinct failure sites of the
serde-derived deserializers: `schemaError` is the structural failure of the
externally tagged union (a map whose key count is not exactly one, the
condition the specification calls SchemaError); `unknownVariant` is the
serde unknown-variant data error raised for an unrecognized variant or
enum tag (the condition the specification calls DecodeError);
`invalidType` is a value of the wrong JSON type; `missingField` is a
required struct field absent from the wire object. -/
inductive DeError where
  | schemaError (msg : String) : DeError
  | unknownVariant (name : String) : DeError
  | invalidType (expected : String) : DeError
  | missingField (name : String) : DeError
deriving DecidableEq

/-- First value bound to a key in a JSON object, as serde field lookup. -/
def jLookup (name : String) : List (String × Json) → Option Json
  | [] => none
  | (k, v) :: rest => if k = name then some v else jLookup name rest

/-- Decode a required struct field: absent key is a missing-field error. -/
def reqField {α : Type} (fields : List (String × Json)) (name : String)
    (f : Json → Except DeError α) : Except DeError α :=
  match jLookup name fields with
  | none => .error (.missingField name)
  | some j => f j

/-- Decode an Option field, serde semantics: an absent key and an explicit
null both decode to none; any other value must decode under `f`. -/
def optField {α : Type} (fields : List (String × Json)) (name : String)
    (f : Json → Except DeError α) : Except DeError (Option α) :=
  match jLookup name fields with
  | none => .ok none
  | some .null => .ok none
  | some j => (f j).map some

/-- Decode a JSON string. -/
def decodeString : Json → Except DeError String
  | .str s => .ok s
  | _ => .error (.invalidType "a string")

/-- Decode a u64 field: a non-negative JSON integer. -/
def decodeU64 : Json → Except DeError Nat
  | .num (Int.ofNat n) => .ok n
  | .num (Int.negSucc _) => .error (.invalidType "u64")
  | _ => .error (.invalidType "u64")

/-- Decode an i64 (or i32) field: any JSON integer. -/
def decodeI64 : Json → Except DeError Int
  | .num n => .ok n
  | _ => .error (.invalidType "i64")

/-- Decode every element of a JSON array in order, failing on the first
element that fails, as the serde Vec deserializer does. -/
def decodeEach {α : Type} (f : Json → Except DeError α) :
    List Json → Except DeError (List α)
  | [] => .ok []
  | j :: rest => do
    let x ← f j
    let xs ← decodeEach f rest
    .ok (x :: xs)

/-- Decode a Vec field: a JSON array whose elements all decode under `f`. -/
def decodeList {α : Type} (f : Json → Except DeError α) :
    Json → Except DeError (List α)
  | .arr xs => decodeEach f xs
  | _ => .error (.invalidType "a sequence")

/-- Time In Force for an order (commands.rs, enum TimeInForce). -/
inductive TimeInForce where
  | Unspecified | Gtc | Gtt | Ioc | Fok | Gfa | Gfn
deriving DecidableEq

/-- Serialize TimeInForce to its per-variant rename tag. -/
def TimeInForce.toJson : TimeInForce → Json
  | .Unspecified => .str "TIME_IN_FORCE_UNSPECIFIED"
  | .Gtc => .str "TIME_IN_FORCE_GTC"
  | .Gtt => .str "TIME_IN_FORCE_GTT"
  | .Ioc => .str "TIME_IN_FORCE_IOC"
  | .Fok => .str "TIME_IN_FORCE_FOK"
  | .Gfa => .str "TIME_IN_FORCE_GFA"
  | .Gfn => .str "TIME_IN_FORCE_GFN"

/-- Deserialize TimeInForce; any string outside the tag set is an
unknown-variant error, any non-string value a type error. -/
def TimeInForce.fromJson : Json → Except DeError TimeInForce
  | .str s =>
    if s = "TIME_IN_FORCE_UNSPECIFIED" then .ok .Unspecified
    else if s = "TIME_IN_FORCE_GTC" then .ok .Gtc
    else if s = "TIME_IN_FORCE_GTT" then .ok .Gtt
    else if s = "TIME_IN_FORCE_IOC" then .ok .Ioc
    else if s = "TIME_IN_FORCE_FOK" then .ok .Fok
    else if s = "TIME_IN_FORCE_GFA" then .ok .Gfa
    else if s = "TIME_IN_FORCE_GFN" then .ok .Gfn
    else .error (.unknownVariant s)
  | _ => .error (.invalidType "a string tag")

/-- Type values for an order (commands.rs, enum OrderType). -/
inductive OrderType where
  | Unspecified | Limit | Market | Network
deriving DecidableEq

/-- Serialize OrderType to its per-variant rename tag. -/
def OrderType.toJson : OrderType → Json
  | .Unspecified => .str "TYPE_UNSPECIFIED"
  | .Limit => .str "TYPE_LIMIT"
  | .Market => .str "TYPE_MARKET"
  | .Network => .str "TYPE_NETWORK"

/-- Deserialize OrderType from its tag set. -/
def OrderType.fromJson : Json → Except DeError OrderType
  | .str s =>
    if s = "TYPE_UNSPECIFIED" then .ok .Unspecified
    else if s = "TYPE_LIMIT" then .ok .Limit
    else if s = "TYPE_MARKET" then .ok .Market
    else if s = "TYPE_NETWORK" then .ok .Network
    else .error (.unknownVariant s)
  | _ => .error (.invalidType "a string tag")

/-- Direction of an order (commands.rs, enum Side). -/
inductive Side where
  | Unspecified | Buy | Sell
deriving DecidableEq

/-- Serialize Side to its per-variant rename tag. -/
def Side.toJson : Side → Json
  | .Unspecified => .str "SIDE_UNSPECIFIED"
  | .Buy => .str "SIDE_BUY"
  | .Sell => .str "SIDE_SELL"

/-- Deserialize Side from its tag set. -/
def Side.fromJson : Json → Except DeError Side
  | .str s =>
    if s = "SIDE_UNSPECIFIED" then .ok .Unspecified
    else if s = "SIDE_BUY" then .ok .Buy
    else if s = "SIDE_SELL" then .ok .Sell
    else .error (.unknownVariant s)
  | _ => .error (.invalidType "a string tag")

/-- Price point a pegged order is linked to (commands.rs, enum
PeggedReference). -/
inductive PeggedReference where
  | Unspecified | Mid | BestBid | BestAsk
deriving DecidableEq

/-- Serialize PeggedReference to its per-variant rename tag. -/
def PeggedReference.toJson : PeggedReference → Json
  | .Unspecified => .str "PEGGED_REFERENCE_UNSPECIFIED"
  | .Mid => .str "PEGGED_REFERENCE_MID"
  | .BestBid => .str "PEGGED_REFERENCE_BEST_BID"
  | .BestAsk => .str "PEGGED_REFERENCE_BEST_ASK"

/-- Deserialize PeggedReference from its tag set. -/
def PeggedReference.fromJson : Json → Except DeError PeggedReference
  | .str s =>
    if s = "PEGGED_REFERENCE_UNSPECIFIED" then .ok .Unspecified
    else if s = "PEGGED_REFERENCE_MID" then .ok .Mid
    else if s = "PEGGED_REFERENCE_BEST_BID" then .ok .BestBid
    else if s = "PEGGED_REFERENCE_BEST_ASK" then .ok .BestAsk
    else .error (.unknownVariant s)
  | _ => .error (.invalidType "a string tag")

/-- Vote value (commands.rs, enum VoteValue). -/
inductive VoteValue where
  | Unspecified | No | Yes
deriving DecidableEq

/-- Serialize VoteValue to its per-variant rename tag. -/
def VoteValue.toJson : VoteValue → Json
  | .Unspecified => .str "VALUE_UNSPECIFIED"
  | .No => .str "VALUE_NO"
  | .Yes => .str "VALUE_YES"

/-- Deserialize VoteValue from its tag set. -/
def VoteValue.fromJson : Json → Except DeError VoteValue
  | .str s =>
    if s = "VALUE_UNSPECIFIED" then .ok .Unspecified
    else if s = "VALUE_NO" then .ok .No
    else if s = "VALUE_YES" then .ok .Yes
    else .error (.unknownVariant s)
  | _ => .error (.invalidType "a string tag")

/-- A pegged order: price given as reference plus offset (commands.rs,
struct PeggedOrder, rename_all = camelCase). -/
structure PeggedOrder where
  reference : PeggedReference
  offset : String
deriving DecidableEq

/-- Serialize PeggedOrder; field names already lowerCamelCase. -/
def PeggedOrder.toJson (p : PeggedOrder) : Json :=
  .obj [("reference", p.reference.toJson), ("offset", .str p.offset)]

/-- Deserialize PeggedOrder from a wire object. -/
def PeggedOrder.fromJson : Json → Except DeError PeggedOrder
  | .obj fs => do
    let reference ← reqField fs "reference" PeggedReference.fromJson
    let offset ← reqField fs "offset" decodeString
    .ok ⟨reference, offset⟩
  | _ => .error (.invalidType "struct PeggedOrder")

/-- A request to create a new order (commands.rs, struct OrderSubmission,
rename_all = camelCase). The u64 size is modelled as Nat, the i64
expires_at as Int. -/
structure OrderSubmission where
  market_id : String
  price : String
  size : Nat
  side : Side
  time_in_force : TimeInForce
  expires_at : Int
  type : OrderType
  reference : String
  pegged_order : Option PeggedOrder
deriving DecidableEq

/-- Serialize the optional pegged_order field: none becomes null. -/
def optJson {α : Type} (f : α → Json) : Option α → Json
  | none => .null
  | some x => f x

/-- Serialize OrderSubmission with lowerCamelCase field names. -/
def OrderSubmission.toJson (o : OrderSubmission) : Json :=
  .obj [("marketId", .str o.market_id),
        ("price", .str o.price),
        ("size", .num (Int.ofNat o.size)),
        ("side", o.side.toJson),
        ("timeInForce", o.time_in_force.toJson),
        ("expiresAt", .num o.expires_at),
        ("type", o.type.toJson),
        ("reference", .str o.reference),
        ("peggedOrder", optJson PeggedOrder.toJson o.pegged_order)]

/-- Deserialize OrderSubmission from a wire object. -/
def OrderSubmission.fromJson : Json → Except DeError OrderSubmission
  | .obj fs => do
    let market_id ← reqField fs "marketId" decodeString
    let price ← reqField fs "price" decodeString
    let size ← reqField fs "size" decodeU64
    let side ← reqField fs "side" Side.fromJson
    let time_in_force ← reqField fs "timeInForce" TimeInForce.fromJson
    let expires_at ← reqField fs "expiresAt" decodeI64
    let type ← reqField fs "type" OrderType.fromJson
    let reference ← reqField fs "reference" decodeString
    let pegged_order ← optField fs "peggedOrder" PeggedOrder.fromJson
    .ok ⟨market_id, price, size, side, time_in_force, expires_at, type,
         reference, pegged_order⟩
  | _ => .error (.invalidType "struct OrderSubmission")

/-- A request to cancel an existing order (commands.rs, struct
OrderCancellation, rename_all = camelCase). -/
structure OrderCancellation where
  order_id : String
  market_id : String
deriving DecidableEq

/-- Serialize OrderCancellation with lowerCamelCase field names. -/
def OrderCancellation.toJson (o : OrderCancellation) : Json :=
  .obj [("orderId", .str o.order_id), ("marketId", .str o.market_id)]

/-- Deserialize OrderCancellation from a wire object. -/
def OrderCancellation.fromJson : Json → Except DeError OrderCancellation
  | .obj fs => do
    let order_id ← reqField fs "orderId" decodeString
    let market_id ← reqField fs "marketId" decodeString
    .ok ⟨order_id, market_id⟩
  | _ => .error (.invalidType "struct OrderCancellation")

/-- A request to amend an existing order (commands.rs, struct
OrderAmendment, rename_all = camelCase). price and expires_at are
Option fields; pegged_offset and pegged_reference are not (the i32
pegged_reference is modelled as Int). -/
structure OrderAmendment where
  order_id : String
  market_id : String
  price : Option String
  size_delta : Int
  expires_at : Option Int
  time_in_force : TimeInForce
  pegged_offset : String
  pegged_reference : Int
deriving DecidableEq

/-- Serialize OrderAmendment with lowerCamelCase field names; the Option
fields serialize to null when none. -/
def OrderAmendment.toJson (o : OrderAmendment) : Json :=
  .obj [("orderId", .str o.order_id),
        ("marketId", .str o.market_id),
        ("price", optJson Json.str o.price),
        ("sizeDelta", .num o.size_delta),
        ("expiresAt", optJson Json.num o.expires_at),
        ("timeInForce", o.time_in_force.toJson),
        ("peggedOffset", .str o.pegged_offset),
        ("peggedReference", .num o.pegged_reference)]

/-- Deserialize OrderAmendment from a wire object. -/
def OrderAmendment.fromJson : Json → Except DeError OrderAmendment
  | .obj fs => do
    let order_id ← reqField fs "orderId" decodeString
    let market_id ← reqField fs "marketId" decodeString
    let price ← optField fs "price" decodeString
    let size_delta ← reqField fs "sizeDelta" decodeI64
    let expires_at ← optField fs "expiresAt" decodeI64
    let time_in_force ← reqField fs "timeInForce" TimeInForce.fromJson
    let pegged_offset ← reqField fs "peggedOffset" decodeString
    let pegged_reference ← reqField fs "peggedReference" decodeI64
    .ok ⟨order_id, market_id, price, size_delta, expires_at, time_in_force,
         pegged_offset, pegged_reference⟩
  | _ => .error (.invalidType "struct OrderAmendment")

/-- A batch of order instructions (commands.rs, struct
BatchMarketInstructions, rename_all = camelCase). -/
structure BatchMarketInstructions where
  cancellations : List OrderCancellation
  amendments : List OrderAmendment
  submissions : List OrderSubmission
deriving DecidableEq

/-- Serialize BatchMarketInstructions; field names already camelCase. -/
def BatchMarketInstructions.toJson (b : BatchMarketInstructions) : Json :=
  .obj [("cancellations", .arr (b.cancellations.map OrderCancellation.toJson)),
        ("amendments", .arr (b.amendments.map OrderAmendment.toJson)),
        ("submissions", .arr (b.submissions.map OrderSubmission.toJson))]

/-- Deserialize BatchMarketInstructions from a wire object. -/
def BatchMarketInstructions.fromJson : Json → Except DeError BatchMarketInstructions
  | .obj fs => do
    let cancellations ← reqField fs "cancellations" (decodeList OrderCancellation.fromJson)
    let amendments ← reqField fs "amendments" (decodeList OrderAmendment.fromJson)
    let submissions ← reqField fs "submissions" (decodeList OrderSubmission.fromJson)
    .ok ⟨cancellations, amendments, submissions⟩
  | _ => .error (.invalidType "struct BatchMarketInstructions")

/-- A vote on a governance proposal (commands.rs, struct VoteSubmission).
This struct carries NO rename_all attribute in the source, so its wire
field names are the in-memory snake_case names. -/
structure VoteSubmission where
  proposal_id : String
  value : VoteValue
deriving DecidableEq

/-- Serialize VoteSubmission; without a rename_all attribute the serde
derive emits the field identifiers verbatim, so the wire keys are
proposal_id and value. -/
def VoteSubmission.toJson (v : VoteSubmission) : Json :=
  .obj [("proposal_id", .str v.proposal_id), ("value", v.value.toJson)]

/-- Deserialize VoteSubmission from a wire object (snake_case keys). -/
def VoteSubmission.fromJson : Json → Except DeError VoteSubmission
  | .obj fs => do
    let proposal_id ← reqField fs "proposal_id" decodeString
    let value ← reqField fs "value" VoteValue.fromJson
    .ok ⟨proposal_id, value⟩
  | _ => .error (.invalidType "struct VoteSubmission")

/-- The command union (commands.rs, enum Command, rename_all = camelCase,
externally tagged). Constructor names are lowercased to avoid clashing
with the payload type names. -/
inductive Command where
  | batchMarketInstructions (b : BatchMarketInstructions) : Command
  | orderSubmission (o : OrderSubmission) : Command
  | orderCancellation (o : OrderCancellation) : Command
  | orderAmendment (o : OrderAmendment) : Command
  | voteSubmission (v : VoteSubmission) : Command
deriving DecidableEq

/-- Serialize Command in the externally tagged representation: a
single-key object whose key is the camelCase variant name and whose
value is the payload serialization. -/
def Command.toJson : Command → Json
  | .batchMarketInstructions b => .obj [("batchMarketInstructions", b.toJson)]
  | .orderSubmission o => .obj [("orderSubmission", o.toJson)]
  | .orderCancellation o => .obj [("orderCancellation", o.toJson)]
  | .orderAmendment o => .obj [("orderAmendment", o.toJson)]
  | .voteSubmission v => .obj [("voteSubmission", v.toJson)]

/-- The wire key naming the active variant of a Command. -/
def Command.wireKey : Command → String
  | .batchMarketInstructions _ => "batchMarketInstructions"
  | .orderSubmission _ => "orderSubmission"
  | .orderCancellation _ => "orderCancellation"
  | .orderAmendment _ => "orderAmendment"
  | .voteSubmission _ => "voteSubmission"

/-- The serialization of the active variant payload of a Command. -/
def Command.payloadJson : Command → Json
  | .batchMarketInstructions b => b.toJson
  | .orderSubmission o => o.toJson
  | .orderCancellation o => o.toJson
  | .orderAmendment o => o.toJson
  | .voteSubmission v => v.toJson

/-- The five recognized wire keys of the Command union. -/
def commandKeys : List String :=
  ["batchMarketInstructions", "orderSubmission", "orderCancellation",
   "orderAmendment", "voteSubmission"]

/-- Deserialize Command, serde externally-tagged semantics: the value
must be a map with exactly one key (otherwise the single-key structural
error), the key must be a known variant name (otherwise an
unknown-variant error), and the payload must deserialize. -/
def Command.fromJson : Json → Except DeError Command
  | .obj [] => .error (.schemaError "map with a single key")
  | .obj [(k, v)] =>
    if k = "batchMarketInstructions" then
      (BatchMarketInstructions.fromJson v).map Command.batchMarketInstructions
    else if k = "orderSubmission" then
      (OrderSubmission.fromJson v).map Command.orderSubmission
    else if k = "orderCancellation" then
      (OrderCancellation.fromJson v).map Command.orderCancellation
    else if k = "orderAmendment" then
      (OrderAmendment.fromJson v).map Command.orderAmendment
    else if k = "voteSubmission" then
      (VoteSubmission.fromJson v).map Command.voteSubmission
    else .error (.unknownVariant k)
  | .obj _ => .error (.schemaError "map with a single key")
  | _ => .error (.invalidType "map")

/-- Hexadecimal digit character, lowercase, as the serde_json writer. -/
def hexDigit (n : Nat) : Char :=
  if n < 10 then Char.ofNat (48 + n) else Char.ofNat (87 + n)

/-- Escape one character inside a JSON string literal, following the
serde_json compact writer: quote, backslash, the short control escapes
b t n f r, and a four-digit u-escape for the remaining control range. -/
def escapeChar (c : Char) : String :=
  if c = '"' then "\\\""
  else if c = '\\' then "\\\\"
  else if c.toNat = 8 then "\\b"
  else if c = '\t' then "\\t"
  else if c = '\n' then "\\n"
  else if c.toNat = 12 then "\\f"
  else if c = '\r' then "\\r"
  else if c.toNat < 32 then
    "\\u00" ++ String.singleton (hexDigit (c.toNat / 16))
            ++ String.singleton (hexDigit (c.toNat % 16))
  else String.singleton c

/-- A JSON string literal with surrounding quotes. -/
def escapeString (s : String) : String :=
  "\"" ++ String.join (s.data.map escapeChar) ++ "\""

/-- Compact JSON rendering, as serde_json to_string, with a fuel bound on
the nesting depth so the recursion is structural (and hence evaluates in
the kernel); every document this protocol produces has depth far below
any fuel passed in. -/
def Json.renderF : Nat → Json → String
  | _, .null => "null"
  | _, .bool true => "true"
  | _, .bool false => "false"
  | _, .num n => toString n
  | _, .str s => escapeString s
  | 0, .arr _ => ""
  | fuel + 1, .arr xs =>
    "[" ++ String.intercalate "," (xs.map (Json.renderF fuel)) ++ "]"
  | 0, .obj _ => ""
  | fuel + 1, .obj fs =>
    "\x7b" ++ String.intercalate ","
      (fs.map (fun p => escapeString p.1 ++ ":" ++ Json.renderF fuel p.2)) ++ "\x7d"

/-- Compact JSON rendering at a fuel that dominates the nesting depth of
every value in this development. -/
def Json.render (j : Json) : String := Json.renderF 32 j

/-- The top-level keys of a JSON object, in order. -/
def Json.fieldNames : Json → List String
  | .obj fs => fs.map Prod.fst
  | _ => []

/-- Parameters of a send_transaction request (request.rs, struct Params,
rename_all = camelCase). -/
structure Params where
  sending_mode : String
  transaction : Command
deriving DecidableEq

/-- Params constructor (request.rs, Params::new). -/
def Params.new (cmd : Command) : Params :=
  { sending_mode := "TYPE_SYNC", transaction := cmd }

/-- Serialize Params with lowerCamelCase field names. -/
def Params.toJson (p : Params) : Json :=
  .obj [("sendingMode", .str p.sending_mode),
        ("transaction", p.transaction.toJson)]

/-- The JSON-RPC request envelope (request.rs, struct Request,
rename_all = camelCase with version renamed to jsonrpc). -/
structure Request where
  version : String
  method : String
  params : Option Params
  id : String
deriving DecidableEq

/-- Serialize Request; the params Option field serializes to null when
absent (no skip attribute in the source). -/
def Request.toJson (r : Request) : Json :=
  .obj [("jsonrpc", .str r.version),
        ("method", .str r.method),
        ("params", optJson Params.toJson r.params),
        ("id", .str r.id)]

/-- Request constructor for send_transaction (request.rs,
Request::new_send_transaction). The call to rand random of type u64 is
modelled by the explicit argument rng, reduced modulo 2 to the 64 to the
width of the drawn integer; to_string on a u64 is decimal rendering. -/
def Request.new_send_transaction (cmd : Command) (rng : Nat) : Request :=
  { version := "2.0"
    method := "client.send_transaction"
    params := some (Params.new cmd)
    id := Nat.repr (rng % 2 ^ 64) }

/-- Request constructor for list_keys (request.rs,
Request::new_list_keys); same id generation, no params. -/
def Request.new_list_keys (rng : Nat) : Request :=
  { version := "2.0"
    method := "client.list_keys"
    params := none
    id := Nat.repr (rng % 2 ^ 64) }

/-- A named public key (response.rs, struct Key, rename_all =
camelCase). -/
structure Key where
  name : String
  public_key : String
deriving DecidableEq

/-- Deserialize Key from a wire object. -/
def Key.fromJson : Json → Except DeError Key
  | .obj fs => do
    let name ← reqField fs "name" decodeString
    let public_key ← reqField fs "publicKey" decodeString
    .ok ⟨name, public_key⟩
  | _ => .error (.invalidType "struct Key")

/-- The list_keys result payload (response.rs, struct KeysResponse). -/
structure KeysResponse where
  keys : List Key
deriving DecidableEq

/-- Deserialize KeysResponse from a wire object. -/
def KeysResponse.fromJson : Json → Except DeError KeysResponse
  | .obj fs => do
    let keys ← reqField fs "keys" (decodeList Key.fromJson)
    .ok ⟨keys⟩
  | _ => .error (.invalidType "struct KeysResponse")

/-- The generic JSON-RPC response envelope (response.rs, struct
Response with version renamed to jsonrpc). -/
structure Response (T : Type) where
  version : String
  result : T
  id : String
deriving DecidableEq

/-- Deserialize a Response envelope given a decoder for the result. -/
def Response.fromJson {T : Type} (f : Json → Except DeError T) :
    Json → Except DeError (Response T)
  | .obj fs => do
    let version ← reqField fs "jsonrpc" decodeString
    let result ← reqField fs "result" f
    let id ← reqField fs "id" decodeString
    .ok ⟨version, result, id⟩
  | _ => .error (.invalidType "struct Response")

/-- Errors of the underlying reqwest HTTP library, abstracted to the two
causes this client can hit: a transport-level failure of the request
itself, or a failure decoding a response body as typed JSON. -/
inductive ReqwestErr where
  | transport (msg : String) : ReqwestErr
  | decode (e : DeError) : ReqwestErr
deriving DecidableEq

/-- The client error type (lib.rs, enum Error). The source declares
exactly one variant, ReqwestError, wrapping the underlying reqwest
error. -/
inductive Error where
  | ReqwestError (e : ReqwestErr) : Error
deriving DecidableEq

/-- The wrapped reqwest error of a client error (total, since the enum
has a single variant). -/
def Error.inner : Error → ReqwestErr
  | .ReqwestError e => e

/-- Outcome of one HTTP exchange with the wallet service, passed in
explicitly: either the request fails at the network level, or the
service answers with some status code and a body (modelled as a JSON
document). -/
inductive HttpOutcome where
  | networkFailure (msg : String) : HttpOutcome
  | response (status : Nat) (body : Json) : HttpOutcome

/-- An HTTP response as reqwest hands it back. -/
structure HttpResponse where
  status : Nat
  body : Json

/-- The reqwest send operation: it resolves to Ok for ANY HTTP response,
whatever its status code, and to Err only when the request itself fails
(connection refused, timeout, and so on). This is the documented reqwest
contract; the source never calls error_for_status. -/
def reqwestSend : HttpOutcome → Except ReqwestErr HttpResponse
  | .networkFailure msg => .error (.transport msg)
  | .response status body => .ok { status := status, body := body }

/-- Parse a response body as a typed Response of KeysResponse, as the
json call on a reqwest response does for the list_keys result type; a
body that does not match the envelope is a reqwest decode error. -/
def HttpResponse.jsonKeys (r : HttpResponse) :
    Except ReqwestErr (Response KeysResponse) :=
  match Response.fromJson KeysResponse.fromJson r.body with
  | .error e => .error (.decode e)
  | .ok v => .ok v

/-- Service endpoints derived from the base URL and token (lib.rs,
struct Endpoints and Endpoints::new). -/
structure Endpoints where
  token_header : String
  base_url : String
  health : String
  request : String
deriving DecidableEq

/-- Endpoints constructor (lib.rs, Endpoints::new). -/
def Endpoints.new (base_url token : String) : Endpoints :=
  { token_header := "VWT " ++ token
    base_url := base_url
    health := base_url ++ "/api/v2/health"
    request := base_url ++ "/api/v2/requests" }

/-- The wallet client (lib.rs, struct WalletClient); the reqwest client
handle carries no observable state and is modelled as Unit. -/
structure WalletClient where
  clt : Unit
  endpoints : Endpoints
  pubkey : String
deriving DecidableEq

/-- Health check (lib.rs, WalletClient::check_health): performs a GET on
the health endpoint, propagates a reqwest error with the question-mark
operator, and DISCARDS the response (let underscore), so any HTTP
response at all, whatever its status, yields Ok. -/
def WalletClient.check_health (_w : WalletClient) (outcome : HttpOutcome) :
    Except Error Unit :=
  match reqwestSend outcome with
  | .error e => .error (Error.ReqwestError e)
  | .ok _ => .ok ()

/-- Client construction (lib.rs, WalletClient::new): builds the value,
runs the health check on it, and returns the client iff the health check
succeeded. The outcome of the health GET is passed in explicitly. -/
def WalletClient.new (wallet_address token pubkey : String)
    (healthOutcome : HttpOutcome) : Except Error WalletClient :=
  let w : WalletClient :=
    { clt := ()
      endpoints := Endpoints.new wallet_address token
      pubkey := pubkey }
  match w.check_health healthOutcome with
  | .error e => .error e
  | .ok _ => .ok w

/-- Key listing (lib.rs, WalletClient::list_keys): POSTs a list_keys
request, propagates a reqwest send error, then parses the body as a
Response of KeysResponse (a failure there is a reqwest decode error,
also wrapped in Error::ReqwestError by the question-mark operator) and
returns the result field. -/
def WalletClient.list_keys (_w : WalletClient) (outcome : HttpOutcome) :
    Except Error KeysResponse :=
  match reqwestSend outcome with
  | .error e => .error (Error.ReqwestError e)
  | .ok resp =>
    match resp.jsonKeys with
    | .error e => .error (Error.ReqwestError e)
    | .ok r => .ok r.result

/-! Helper lemmas shared by the claim theorems. -/

/-- Binding an ok value in the Except monad applies the continuation. -/
@[simp] theorem except_bind_ok {ε α β : Type} (x : α) (f : α → Except ε β) :
    (do let a ← (Except.ok x : Except ε α); f a) = f x := rfl

/-- Mapping over an ok value applies the function. -/
@[simp] theorem except_map_ok {ε α β : Type} (g : α → β) (x : α) :
    Except.map g (Except.ok x : Except ε α) = .ok (g x) := rfl

/-- Roundtrip for the OrderCancellation payload codec. -/
theorem orderCancellation_roundtrip (x : OrderCancellation) :
    OrderCancellation.fromJson (OrderCancellation.toJson x) = .ok x := rfl

/-- Roundtrip for the OrderAmendment payload codec. -/
theorem orderAmendment_roundtrip (x : OrderAmendment) :
    OrderAmendment.fromJson (OrderAmendment.toJson x) = .ok x := by
  cases x with
  | mk a b p c d t e f => cases p <;> cases d <;> cases t <;> rfl

/-- Roundtrip for the VoteSubmission payload codec. -/
theorem voteSubmission_roundtrip (x : VoteSubmission) :
    VoteSubmission.fromJson (VoteSubmission.toJson x) = .ok x := by
  cases x with
  | mk p v => cases v <;> rfl

/-- Roundtrip for the OrderSubmission payload codec. -/
theorem orderSubmission_roundtrip (x : OrderSubmission) :
    OrderSubmission.fromJson (OrderSubmission.toJson x) = .ok x := by
  cases x with
  | mk a b c sd tif d ty e po =>
    cases sd <;> cases tif <;> cases ty <;>
      (cases po with
       | none => rfl
       | some p => cases p with
         | mk r o => cases r <;> rfl)

/-- Elementwise roundtrip lifts to the sequence decoder. -/
theorem decodeEach_map_roundtrip {α : Type} (f : Json → Except DeError α)
    (g : α → Json) (h : ∀ x, f (g x) = .ok x) :
    ∀ xs : List α, decodeEach f (xs.map g) = .ok xs := by
  intro xs
  induction xs with
  | nil => rfl
  | cons x rest ih => simp [decodeEach, h x, ih]

/-- Roundtrip for the BatchMarketInstructions payload codec. -/
theorem batchMarketInstructions_roundtrip (x : BatchMarketInstructions) :
    BatchMarketInstructions.fromJson (BatchMarketInstructions.toJson x) = .ok x := by
  cases x with
  | mk cs as ss =>
    simp [BatchMarketInstructions.toJson, BatchMarketInstructions.fromJson,
      reqField, jLookup, decodeList,
      decodeEach_map_roundtrip OrderCancellation.fromJson OrderCancellation.toJson
        orderCancellation_roundtrip,
      decodeEach_map_roundtrip OrderAmendment.fromJson OrderAmendment.toJson
        orderAmendment_roundtrip,
      decodeEach_map_roundtrip OrderSubmission.fromJson OrderSubmission.toJson
        orderSubmission_roundtrip]

/-- The digit accumulator of Nat.toDigitsCore is never shortened, so a
call seeded with a nonempty accumulator returns a nonempty list. -/
theorem toDigitsCore_cons_ne_nil (b : Nat) :
    ∀ (fuel n : Nat) (c : Char) (tl : List Char),
      Nat.toDigitsCore b fuel n (c :: tl) ≠ [] := by
  intro fuel
  induction fuel with
  | zero => intro n c tl; simp [Nat.toDigitsCore]
  | succ f ih =>
    intro n c tl
    simp only [Nat.toDigitsCore]
    split
    · simp
    · exact ih _ _ _

/-- The digit list of a natural number is nonempty. -/
theorem toDigits_ne_nil (b n : Nat) : Nat.toDigits b n ≠ [] := by
  simp only [Nat.toDigits, Nat.toDigitsCore]
  split
  · simp
  · exact toDigitsCore_cons_ne_nil b n _ _ []

/-- The decimal rendering of a natural number is never empty. -/
theorem nat_repr_ne_empty (n : Nat) : Nat.repr n ≠ "" := by
  intro h
  exact toDigits_ne_nil 10 n (congrArg String.data h)

/-! The claim theorems. -/

/-- C1: for every Command value, of any of the five variants and with any
field values, serializing to JSON and deserializing the result yields a
value equal to the original. -/
theorem command_serialize_roundtrip (c : Command) :
    Command.fromJson (Command.toJson c) = .ok c := by
  cases c with
  | batchMarketInstructions b =>
    simp [Command.toJson, Command.fromJson, batchMarketInstructions_roundtrip b]
  | orderSubmission o =>
    simp [Command.toJson, Command.fromJson, orderSubmission_roundtrip o]
  | orderCancellation o =>
    simp [Command.toJson, Command.fromJson, orderCancellation_roundtrip o]
  | orderAmendment o =>
    simp [Command.toJson, Command.fromJson, orderAmendment_roundtrip o]
  | voteSubmission v =>
    simp [Command.toJson, Command.fromJson, voteSubmission_roundtrip v]

/-- C2: every Command serializes to an object with exactly one top-level
key; that key is the camelCase variant name, drawn from the five
recognized keys, and its value is the serialization of the active
variant payload. -/
theorem command_wire_shape (c : Command) :
    Command.toJson c = .obj [(c.wireKey, c.payloadJson)] ∧
    c.wireKey ∈ commandKeys := by
  cases c with
  | batchMarketInstructions b =>
    exact ⟨rfl, by show "batchMarketInstructions" ∈ commandKeys; decide⟩
  | orderSubmission o =>
    exact ⟨rfl, by show "orderSubmission" ∈ commandKeys; decide⟩
  | orderCancellation o =>
    exact ⟨rfl, by show "orderCancellation" ∈ commandKeys; decide⟩
  | orderAmendment o =>
    exact ⟨rfl, by show "orderAmendment" ∈ commandKeys; decide⟩
  | voteSubmission v =>
    exact ⟨rfl, by show "voteSubmission" ∈ commandKeys; decide⟩

/-- C3: deserializing a Command from an object with zero keys or with
two or more keys fails with the single-key structural error (the
SchemaError of the specification); with exactly one recognized key and a
well-formed payload it succeeds; with exactly one unrecognized key it
fails with the unknown-variant error (the DecodeError of the
specification). -/
theorem command_tagged_union_exclusivity :
    (Command.fromJson (.obj []) = .error (.schemaError "map with a single key")) ∧
    (∀ fs : List (String × Json), 2 ≤ fs.length →
      Command.fromJson (.obj fs) = .error (.schemaError "map with a single key")) ∧
    (∀ (k : String) (v : Json), k ∉ commandKeys →
      Command.fromJson (.obj [(k, v)]) = .error (.unknownVariant k)) ∧
    (∀ c : Command, Command.fromJson (.obj [(c.wireKey, c.payloadJson)]) = .ok c) := by
  refine ⟨rfl, ?_, ?_, ?_⟩
  · intro fs h
    match fs with
    | [] => simp at h
    | [x] => simp at h
    | (k, v) :: b :: rest => rfl
  · intro k v h
    simp [commandKeys] at h
    simp [Command.fromJson, h.1, h.2.1, h.2.2.1, h.2.2.2.1, h.2.2.2.2]
  · intro c
    cases c with
    | batchMarketInstructions b =>
      simp [Command.wireKey, Command.payloadJson, Command.fromJson,
        batchMarketInstructions_roundtrip b]
    | orderSubmission o =>
      simp [Command.wireKey, Command.payloadJson, Command.fromJson,
        orderSubmission_roundtrip o]
    | orderCancellation o =>
      simp [Command.wireKey, Command.payloadJson, Command.fromJson,
        orderCancellation_roundtrip o]
    | orderAmendment o =>
      simp [Command.wireKey, Command.payloadJson, Command.fromJson,
        orderAmendment_roundtrip o]
    | voteSubmission v =>
      simp [Command.wireKey, Command.payloadJson, Command.fromJson,
        voteSubmission_roundtrip v]

/-- Witness for C3: a two-key object and an unrecognized single key fail
as the theorem states, at concrete inputs. -/
theorem command_tagged_union_exclusivity_witness :
    Command.fromJson (.obj [("a", .null), ("b", .null)])
      = .error (.schemaError "map with a single key") ∧
    Command.fromJson (.obj [("bogus", .null)])
      = .error (.unknownVariant "bogus") :=
  ⟨command_tagged_union_exclusivity.2.1 [("a", .null), ("b", .null)] (by decide),
   command_tagged_union_exclusivity.2.2.1 "bogus" .null (by decide)⟩

/-- C4: every variant of the five wire enums encodes to exactly its
documented literal tag, and decoding any string outside an enum tag set
fails with the unknown-variant error, never producing a value and in
particular never the Unspecified sentinel. -/
theorem enum_wire_fidelity :
    (Side.toJson .Unspecified = .str "SIDE_UNSPECIFIED" ∧
     Side.toJson .Buy = .str "SIDE_BUY" ∧
     Side.toJson .Sell = .str "SIDE_SELL" ∧
     OrderType.toJson .Unspecified = .str "TYPE_UNSPECIFIED" ∧
     OrderType.toJson .Limit = .str "TYPE_LIMIT" ∧
     OrderType.toJson .Market = .str "TYPE_MARKET" ∧
     OrderType.toJson .Network = .str "TYPE_NETWORK" ∧
     TimeInForce.toJson .Unspecified = .str "TIME_IN_FORCE_UNSPECIFIED" ∧
     TimeInForce.toJson .Gtc = .str "TIME_IN_FORCE_GTC" ∧
     TimeInForce.toJson .Gtt = .str "TIME_IN_FORCE_GTT" ∧
     TimeInForce.toJson .Ioc = .str "TIME_IN_FORCE_IOC" ∧
     TimeInForce.toJson .Fok = .str "TIME_IN_FORCE_FOK" ∧
     TimeInForce.toJson .Gfa = .str "TIME_IN_FORCE_GFA" ∧
     TimeInForce.toJson .Gfn = .str "TIME_IN_FORCE_GFN" ∧
     PeggedReference.toJson .Unspecified = .str "PEGGED_REFERENCE_UNSPECIFIED" ∧
     PeggedReference.toJson .Mid = .str "PEGGED_REFERENCE_MID" ∧
     PeggedReference.toJson .BestBid = .str "PEGGED_REFERENCE_BEST_BID" ∧
     PeggedReference.toJson .BestAsk = .str "PEGGED_REFERENCE_BEST_ASK" ∧
     VoteValue.toJson .Unspecified = .str "VALUE_UNSPECIFIED" ∧
     VoteValue.toJson .No = .str "VALUE_NO" ∧
     VoteValue.toJson .Yes = .str "VALUE_YES") ∧
    (∀ s : String, s ∉ ["SIDE_UNSPECIFIED", "SIDE_BUY", "SIDE_SELL"] →
      Side.fromJson (.str s) = .error (.unknownVariant s)) ∧
    (∀ s : String, s ∉ ["TYPE_UNSPECIFIED", "TYPE_LIMIT", "TYPE_MARKET", "TYPE_NETWORK"] →
      OrderType.fromJson (.str s) = .error (.unknownVariant s)) ∧
    (∀ s : String,
      s ∉ ["TIME_IN_FORCE_UNSPECIFIED", "TIME_IN_FORCE_GTC", "TIME_IN_FORCE_GTT",
           "TIME_IN_FORCE_IOC", "TIME_IN_FORCE_FOK", "TIME_IN_FORCE_GFA",
           "TIME_IN_FORCE_GFN"] →
      TimeInForce.fromJson (.str s) = .error (.unknownVariant s)) ∧
    (∀ s : String,
      s ∉ ["PEGGED_REFERENCE_UNSPECIFIED", "PEGGED_REFERENCE_MID",
           "PEGGED_REFERENCE_BEST_BID", "PEGGED_REFERENCE_BEST_ASK"] →
      PeggedReference.fromJson (.str s) = .error (.unknownVariant s)) ∧
    (∀ s : String, s ∉ ["VALUE_UNSPECIFIED", "VALUE_NO", "VALUE_YES"] →
      VoteValue.fromJson (.str s) = .error (.unknownVariant s)) := by
  refine ⟨⟨rfl, rfl, rfl, rfl, rfl, rfl, rfl, rfl, rfl, rfl, rfl, rfl, rfl, rfl,
    rfl, rfl, rfl, rfl, rfl, rfl, rfl⟩, ?_, ?_, ?_, ?_, ?_⟩
  · intro s h
    simp at h
    simp [Side.fromJson, h.1, h.2.1, h.2.2]
  · intro s h
    simp at h
    simp [OrderType.fromJson, h.1, h.2.1, h.2.2.1, h.2.2.2]
  · intro s h
    simp at h
    simp [TimeInForce.fromJson, h.1, h.2.1, h.2.2.1, h.2.2.2.1, h.2.2.2.2.1,
      h.2.2.2.2.2.1, h.2.2.2.2.2.2]
  · intro s h
    simp at h
    simp [PeggedReference.fromJson, h.1, h.2.1, h.2.2.1, h.2.2.2]
  · intro s h
    simp at h
    simp [VoteValue.fromJson, h.1, h.2.1, h.2.2]

/-- Witness for C4: concrete strings outside each tag set fail to decode
with the unknown-variant error. -/
theorem enum_wire_fidelity_witness :
    Side.fromJson (.str "SIDE_MAYBE") = .error (.unknownVariant "SIDE_MAYBE") ∧
    OrderType.fromJson (.str "TYPE_FOO") = .error (.unknownVariant "TYPE_FOO") ∧
    TimeInForce.fromJson (.str "TIME_IN_FORCE_SOON")
      = .error (.unknownVariant "TIME_IN_FORCE_SOON") ∧
    PeggedReference.fromJson (.str "PEGGED_REFERENCE_WORST_BID")
      = .error (.unknownVariant "PEGGED_REFERENCE_WORST_BID") ∧
    VoteValue.fromJson (.str "VALUE_MAYBE")
      = .error (.unknownVariant "VALUE_MAYBE") :=
  ⟨enum_wire_fidelity.2.1 "SIDE_MAYBE" (by decide),
   enum_wire_fidelity.2.2.1 "TYPE_FOO" (by decide),
   enum_wire_fidelity.2.2.2.1 "TIME_IN_FORCE_SOON" (by decide),
   enum_wire_fidelity.2.2.2.2.1 "PEGGED_REFERENCE_WORST_BID" (by decide),
   enum_wire_fidelity.2.2.2.2.2 "VALUE_MAYBE" (by decide)⟩

/-- C5 counterexample: the VoteSubmission payload, whose struct carries
no rename attribute in the source, serializes its first field under the
snake_case key proposal_id, which contains an underscore and is not the
lowerCamelCase proposalId, so the claim that every variant payload uses
lowerCamelCase field names fails at this concrete input. -/
theorem voteSubmission_wire_name_counterexample :
    Command.toJson (Command.voteSubmission ⟨"p1", VoteValue.Yes⟩)
      = .obj [("voteSubmission",
          .obj [("proposal_id", .str "p1"), ("value", .str "VALUE_YES")])] ∧
    ('_' ∈ "proposal_id".data) ∧
    "proposal_id" ≠ "proposalId" :=
  ⟨rfl, by decide, by decide⟩

/-- C5 amended: the payloads of the four variants BatchMarketInstructions,
OrderSubmission, OrderCancellation and OrderAmendment (and the nested
PeggedOrder) use lowerCamelCase wire field names, none containing an
underscore; the VoteSubmission payload alone keeps its snake_case
in-memory field name proposal_id on the wire. -/
theorem payload_field_naming (bmi : BatchMarketInstructions)
    (os : OrderSubmission) (oc : OrderCancellation) (oa : OrderAmendment)
    (vs : VoteSubmission) (po : PeggedOrder) :
    (BatchMarketInstructions.toJson bmi).fieldNames
      = ["cancellations", "amendments", "submissions"] ∧
    (OrderSubmission.toJson os).fieldNames
      = ["marketId", "price", "size", "side", "timeInForce", "expiresAt",
         "type", "reference", "peggedOrder"] ∧
    (OrderCancellation.toJson oc).fieldNames = ["orderId", "marketId"] ∧
    (OrderAmendment.toJson oa).fieldNames
      = ["orderId", "marketId", "price", "sizeDelta", "expiresAt",
         "timeInForce", "peggedOffset", "peggedReference"] ∧
    (PeggedOrder.toJson po).fieldNames = ["reference", "offset"] ∧
    (VoteSubmission.toJson vs).fieldNames = ["proposal_id", "value"] ∧
    (["cancellations", "amendments", "submissions", "marketId",
      "price", "size", "side", "timeInForce", "expiresAt", "type",
      "reference", "peggedOrder", "orderId", "sizeDelta", "peggedOffset",
      "peggedReference", "offset", "value"].all
        (fun s => !(s.data.contains '_'))) = true ∧
    ('_' ∈ "proposal_id".data) :=
  ⟨rfl, rfl, rfl, rfl, rfl, rfl, by decide, by decide⟩

/-- C6: new_send_transaction produces version 2.0, method
client.send_transaction, params present with sending_mode TYPE_SYNC and
transaction equal to the given command; new_list_keys produces version
2.0, method client.list_keys, params absent and serialized as null, and
both ids are the nonempty decimal rendering of the drawn 64-bit
unsigned integer. -/
theorem request_envelope_shape (cmd : Command) (r1 r2 : Nat) :
    Request.new_send_transaction cmd r1 =
      { version := "2.0", method := "client.send_transaction",
        params := some { sending_mode := "TYPE_SYNC", transaction := cmd },
        id := Nat.repr (r1 % 2 ^ 64) } ∧
    Request.new_list_keys r2 =
      { version := "2.0", method := "client.list_keys", params := none,
        id := Nat.repr (r2 % 2 ^ 64) } ∧
    (Request.new_list_keys r2).toJson =
      .obj [("jsonrpc", .str "2.0"), ("method", .str "client.list_keys"),
            ("params", .null), ("id", .str (Nat.repr (r2 % 2 ^ 64)))] ∧
    r1 % 2 ^ 64 < 2 ^ 64 ∧
    r2 % 2 ^ 64 < 2 ^ 64 ∧
    (Request.new_send_transaction cmd r1).id ≠ "" ∧
    (Request.new_list_keys r2).id ≠ "" :=
  ⟨rfl, rfl, rfl, Nat.mod_lt _ (by norm_num), Nat.mod_lt _ (by norm_num),
   nat_repr_ne_empty _, nat_repr_ne_empty _⟩

/-- C7: the OrderCancellation with order_id abc and market_id def,
wrapped as a Command and rendered compactly, is exactly the documented
JSON text. -/
theorem orderCancellation_exact_serialization :
    Json.render (Command.toJson (Command.orderCancellation ⟨"abc", "def"⟩))
      = "\x7b\"orderCancellation\":\x7b\"orderId\":\"abc\",\"marketId\":\"def\"\x7d\x7d" := by
  decide

/-- C8 counterexample: the health check discards the HTTP response after
the question-mark propagation, so a wallet service answering 503 still
passes it and WalletClient::new RETURNS a client instance, contradicting
the claim that a non-2xx status fails construction. -/
theorem walletClient_new_succeeds_on_503 :
    WalletClient.new "http://localhost:1789" "tok" "pk" (.response 503 .null)
      = .ok { clt := ()
              endpoints := Endpoints.new "http://localhost:1789" "tok"
              pubkey := "pk" } := rfl

/-- C8 amended: construction fails, with the transport error wrapped as
Error::ReqwestError, exactly when the health GET itself fails at the
network level; any HTTP response at all, whatever its status code
(including 503), passes the health check and the client is returned. -/
theorem walletClient_new_fails_only_on_transport
    (addr tok pk msg : String) (status : Nat) (body : Json) :
    WalletClient.new addr tok pk (.response status body)
      = .ok { clt := (), endpoints := Endpoints.new addr tok, pubkey := pk } ∧
    WalletClient.new addr tok pk (.networkFailure msg)
      = .error (.ReqwestError (.transport msg)) :=
  ⟨rfl, rfl⟩

/-- C9 counterexample: at concrete inputs, an unreachable service and a
service answering 200 with a malformed payload both surface from
list_keys as the SAME error kind, the sole variant Error::ReqwestError,
so a caller cannot distinguish the two situations by the returned error
kind alone as the claim states. -/
theorem list_keys_error_kind_not_distinct :
    WalletClient.list_keys
        { clt := (), endpoints := Endpoints.new "u" "t", pubkey := "p" }
        (.networkFailure "connection refused")
      = .error (.ReqwestError (.transport "connection refused")) ∧
    WalletClient.list_keys
        { clt := (), endpoints := Endpoints.new "u" "t", pubkey := "p" }
        (.response 200 (.str "not an envelope"))
      = .error (.ReqwestError (.decode (.invalidType "struct Response"))) :=
  ⟨rfl, rfl⟩

/-- C9 amended: the client Error type has the single kind
Error::ReqwestError, so every failure of the fallible operations is
surfaced under that one kind; a transport failure and a malformed
response payload are told apart only by the wrapped reqwest error
(transport versus decode), not by the kind of Error itself. -/
theorem client_error_single_kind (w : WalletClient) (msg : String) :
    (∀ e : Error, e = Error.ReqwestError e.inner) ∧
    WalletClient.list_keys w (.networkFailure msg)
      = .error (.ReqwestError (.transport msg)) ∧
    WalletClient.list_keys w (.response 200 (.str "oops"))
      = .error (.ReqwestError (.decode (.invalidType "struct Response"))) ∧
    WalletClient.check_health w (.networkFailure msg)
      = .error (.ReqwestError (.transport msg)) :=
  ⟨fun e => by cases e; rfl, rfl, rfl, rfl⟩

/-- C10: for the optional fields OrderAmendment.price,
OrderAmendment.expires_at and OrderSubmission.pegged_order, serializing
a none value emits the key with an explicit null, and deserialization
accepts both an absent key and an explicit null as none, so a wire
object omitting the key and one carrying null decode to equal values. -/
theorem optional_fields_null_and_absent
    (oid mid poff : String) (sd pref : Int) (tif : TimeInForce)
    (mkt prc ref : String) (sz : Nat) (sd2 : Side) (tif2 : TimeInForce)
    (exp2 : Int) (ty : OrderType) :
    (OrderAmendment.toJson ⟨oid, mid, none, sd, none, tif, poff, pref⟩
      = .obj [("orderId", .str oid), ("marketId", .str mid), ("price", .null),
              ("sizeDelta", .num sd), ("expiresAt", .null),
              ("timeInForce", tif.toJson), ("peggedOffset", .str poff),
              ("peggedReference", .num pref)]) ∧
    (OrderAmendment.fromJson
        (.obj [("orderId", .str oid), ("marketId", .str mid),
               ("sizeDelta", .num sd), ("timeInForce", tif.toJson),
               ("peggedOffset", .str poff), ("peggedReference", .num pref)])
      = .ok ⟨oid, mid, none, sd, none, tif, poff, pref⟩) ∧
    (OrderAmendment.fromJson
        (OrderAmendment.toJson ⟨oid, mid, none, sd, none, tif, poff, pref⟩)
      = .ok ⟨oid, mid, none, sd, none, tif, poff, pref⟩) ∧
    (OrderSubmission.toJson ⟨mkt, prc, sz, sd2, tif2, exp2, ty, ref, none⟩
      = .obj [("marketId", .str mkt), ("price", .str prc),
              ("size", .num (Int.ofNat sz)), ("side", sd2.toJson),
              ("timeInForce", tif2.toJson), ("expiresAt", .num exp2),
              ("type", ty.toJson), ("reference", .str ref),
              ("peggedOrder", .null)]) ∧
    (OrderSubmission.fromJson
        (.obj [("marketId", .str mkt), ("price", .str prc),
               ("size", .num (Int.ofNat sz)), ("side", sd2.toJson),
               ("timeInForce", tif2.toJson), ("expiresAt", .num exp2),
               ("type", ty.toJson), ("reference", .str ref)])
      = .ok ⟨mkt, prc, sz, sd2, tif2, exp2, ty, ref, none⟩) ∧
    (OrderSubmission.fromJson
        (OrderSubmission.toJson ⟨mkt, prc, sz, sd2, tif2, exp2, ty, ref, none⟩)
      = .ok ⟨mkt, prc, sz, sd2, tif2, exp2, ty, ref, none⟩) := by
  refine ⟨rfl, ?_, ?_, rfl, ?_, ?_⟩
  · cases tif <;> rfl
  · cases tif <;> rfl
  · cases sd2 <;> cases tif2 <;> cases ty <;> rfl
  · cases sd2 <;> cases tif2 <;> cases ty <;> rfl

end Vega
